import Mathlib

/-!
Verification of the TM4C123GH6PM shift-register / LCD drivers.

Shallow embedding of the bit-banged 74HC595 routines of
`src/004_LCD/main.c` (functions `shift_out1`, `LCD_command`, `LCD_putc`,
`LCD_init`, global `PP2`) and of the 7-segment variant of `shift_out1`
found in the multi-digit display program (`src/unnamed/part_001`).

Machine integers are modelled as `Nat` with explicit `% 256` where the C
code stores into an `unsigned char`.  GPIO register traffic is modelled
as an explicit trace of writes, each write recording the value the data
register holds afterwards.
-/

namespace TM4C

/-- State of the two GPIO data registers used by the LCD program:
`GPIO_PORTE_DATA_R` (PE5 = STK latch) and `GPIO_PORTF_DATA_R`
(PF2 = SDATA, PF3 = SCLK). -/
structure Ports where
  portE : Nat
  portF : Nat
deriving DecidableEq

/-- State of the two GPIO data registers used by the 7-segment program
of `src/unnamed/part_001`: `GPIO_PORTC_DATA_R` (PC4 = STCP latch) and
`GPIO_PORTF_DATA_R` (PF2 = SDATA, PF3 = SHCP). -/
structure PortsSeg where
  portC : Nat
  portF : Nat
deriving DecidableEq

/-- One recorded write to a GPIO data register: the value the register
holds after the write.  `e` is a write to the latch port (PORTE in the
LCD program, PORTC in the 7-segment program), `f` a write to the
data/clock port PORTF. -/
inductive Ev where
  | e (v : Nat)
  | f (v : Nat)
deriving DecidableEq

/-- Body of one iteration of the `for (j = 0; j < 8; j++)` loop of
`shift_out1`: `GPIO_PORTF_DATA_R = 0x00;`, then
`bit = (byte & (1 << j));` with the conditional
`GPIO_PORTF_DATA_R |= 0x04` / `GPIO_PORTF_DATA_R |= 0x00`, then
`GPIO_PORTF_DATA_R |= 0x08;`.  Returns the PORTF value after the
iteration and the three writes performed (`pf` is the incoming PORTF
value, overwritten by the first statement). -/
def shiftLoopIter (byte j _pf : Nat) : Nat × List Ev :=
  let pf1 : Nat := 0x00
  let bit := byte &&& (1 <<< j)
  let pf2 := if bit ≠ 0 then pf1 ||| 0x04 else pf1 ||| 0x00
  let pf3 := pf2 ||| 0x08
  (pf3, [Ev.f pf1, Ev.f pf2, Ev.f pf3])

/-- The `for` loop of `shift_out1`, iterated over the list of bit
indices, threading the PORTF register value and concatenating the
write traces. -/
def shiftLoop (byte : Nat) : List Nat → Nat → Nat × List Ev
  | [], pf => (pf, [])
  | j :: js, pf =>
    let r := shiftLoopIter byte j pf
    let rest := shiftLoop byte js r.1
    (rest.1, r.2 ++ rest.2)

/-- Shallow embedding of `shift_out1` from `src/004_LCD/main.c`:
`GPIO_PORTE_DATA_R = 0x00;` (latch low), the 8-iteration shift loop on
PORTF, then `GPIO_PORTE_DATA_R = 0x20;` (latch high, PE5).  Takes the
prior register state and returns the final state together with the
trace of register writes. -/
def shift_out1 (byte : Nat) (s : Ports) : Ports × List Ev :=
  let s1 : Ports := { s with portE := 0x00 }
  let r := shiftLoop byte (List.range 8) s1.portF
  let s2 : Ports := { portE := 0x20, portF := r.1 }
  (s2, Ev.e 0x00 :: r.2 ++ [Ev.e 0x20])

/-- Shallow embedding of `shift_out1` from `src/unnamed/part_001` (the
multi-digit 7-segment program): identical shift loop on PORTF, but the
latch is PC4, written `GPIO_PORTC_DATA_R = 0x00;` before the loop and
`GPIO_PORTC_DATA_R = 0x10;` after it. -/
def shift_out1_seg (data_byte : Nat) (s : PortsSeg) : PortsSeg × List Ev :=
  let s1 : PortsSeg := { s with portC := 0x00 }
  let r := shiftLoop data_byte (List.range 8) s1.portF
  let s2 : PortsSeg := { portC := 0x10, portF := r.1 }
  (s2, Ev.e 0x00 :: r.2 ++ [Ev.e 0x10])

/-- The shift-clock line SCLK/SHCP is PF3 (mask 0x08). -/
def clkOf (v : Nat) : Bool := v.testBit 3

/-- The serial-data line SDATA is PF2 (mask 0x04). -/
def dataOf (v : Nat) : Bool := v.testBit 2

/-- Values written to the data/clock port PORTF, in trace order. -/
def fWrites (tr : List Ev) : List Nat :=
  tr.filterMap fun ev => match ev with | Ev.f v => some v | Ev.e _ => none

/-- Values written to the latch port, in trace order. -/
def eWrites (tr : List Ev) : List Nat :=
  tr.filterMap fun ev => match ev with | Ev.e v => some v | Ev.f _ => none

/-- Given the clock state before the first write, the value of the DATA
line at each rising edge of the CLOCK line over a list of PORTF write
values. -/
def risesFrom (clk : Bool) : List Nat → List Bool
  | [] => []
  | v :: rest =>
    if !clk && clkOf v then dataOf v :: risesFrom true rest
    else risesFrom (clkOf v) rest

/-- Latch-discipline checker over a write trace.  `lb` is the bit index
of the latch line on the latch port.  The running state is the current
latch level, the current clock level, the number of CLOCK rising edges
since the latch was last driven low, and whether the latch has been
driven low at all.  The check fails if a CLOCK rising edge occurs while
the latch is asserted or before the latch was ever deasserted, or if
the latch transitions from deasserted to asserted when the number of
CLOCK rising edges since it went low is not exactly 8. -/
def latchCheck (lb : Nat) : List Ev → Bool → Bool → Nat → Bool → Bool
  | [], _, _, _, _ => true
  | Ev.e v :: rest, latch, clk, rises, seen =>
    if v.testBit lb && !latch then
      decide (rises = 8) && seen && latchCheck lb rest true clk rises seen
    else if v.testBit lb then
      latchCheck lb rest true clk rises seen
    else
      latchCheck lb rest false clk 0 true
  | Ev.f v :: rest, latch, clk, rises, seen =>
    if clkOf v && !clk then
      !latch && seen && latchCheck lb rest latch true (rises + 1) seen
    else
      latchCheck lb rest latch (clkOf v) rises seen

/-- The wiring bit-remap applied by `LCD_command` and `LCD_putc`
(`src/004_LCD/main.c`):
`((num & 0x11) << 3) | ((num & 0x22) << 1) | ((num & 0x44) >> 1) | ((num & 0x88) >> 3)`. -/
def remap (num : Nat) : Nat :=
  ((num &&& 0x11) <<< 3) ||| ((num &&& 0x22) <<< 1) |||
  ((num &&& 0x44) >>> 1) ||| ((num &&& 0x88) >>> 3)

/-- Embedding of the C statement `x &= ~m` where `x` is an
`unsigned char` and `m` an `int` constant: the complement is taken at
32-bit width and the store truncates to 8 bits. -/
def andNotC (x m : Nat) : Nat := (x &&& (0xFFFFFFFF ^^^ m)) % 256

/-- Shallow embedding of `LCD_command` from `src/004_LCD/main.c`.
Input: the command byte and the prior value of the global accumulator
`PP2` (both `unsigned char`, hence the entry `% 256`).  Output: the
final value of `PP2` and the list of bytes passed to `shift_out1`, in
call order.  The statement `PP2 &= ~(3 << 7);` is embedded by
`andNotC pp (3 <<< 7)`, faithfully keeping the mask `3 << 7 = 0x180`
whose complement clears only bit 7 of an 8-bit value. -/
def LCD_command (command PP2 : Nat) : Nat × List Nat :=
  let command := command % 256
  let pp := PP2 % 256
  let num := remap command
  let command := num
  let pp := ((pp &&& 0xF0) ||| ((command >>> 4) &&& 0x0F)) % 256
  let pp := andNotC pp (3 <<< 7)
  let pp := (pp ||| 0x20) % 256
  let o1 := pp
  let pp := andNotC pp 0x20
  let o2 := pp
  let pp := ((pp &&& 0xF0) ||| (command &&& 0x0F)) % 256
  let pp := andNotC pp (3 <<< 7)
  let pp := (pp ||| 0x20) % 256
  let o3 := pp
  let pp := andNotC pp 0x20
  let o4 := pp
  (pp, [o1, o2, o3, o4])

/-- Shallow embedding of `LCD_putc` from `src/004_LCD/main.c`: same
remap and nibble framing as `LCD_command`, but `PP2 |= 0xA0;` (RS=1,
EN=1) and `PP2 &= ~0x40;` (RW=0) per nibble. -/
def LCD_putc (ascii PP2 : Nat) : Nat × List Nat :=
  let ascii := ascii % 256
  let pp := PP2 % 256
  let num := remap ascii
  let ascii := num
  let pp := ((pp &&& 0xF0) ||| ((ascii >>> 4) &&& 0x0F)) % 256
  let pp := (pp ||| 0xA0) % 256
  let pp := andNotC pp 0x40
  let o1 := pp
  let pp := andNotC pp 0x20
  let o2 := pp
  let pp := ((pp &&& 0xF0) ||| (ascii &&& 0x0F)) % 256
  let pp := (pp ||| 0xA0) % 256
  let pp := andNotC pp 0x40
  let o3 := pp
  let pp := andNotC pp 0x20
  let o4 := pp
  (pp, [o1, o2, o3, o4])

/-- One step of the `LCD_init` call sequence: either a call
`LCD_command b` or a call `delayMs ms`. -/
inductive InitEv where
  | cmd (b : Nat)
  | delay (ms : Nat)
deriving DecidableEq

/-- The exact call sequence performed by `LCD_init` in
`src/004_LCD/main.c`. -/
def LCD_init_events : List InitEv :=
  [InitEv.delay 20,
   InitEv.cmd 0x30, InitEv.delay 5,
   InitEv.cmd 0x30, InitEv.delay 5,
   InitEv.cmd 0x30, InitEv.delay 5,
   InitEv.cmd 0x20, InitEv.delay 5,
   InitEv.cmd 0x28, InitEv.delay 5,
   InitEv.cmd 0x0C, InitEv.delay 5,
   InitEv.cmd 0x06, InitEv.delay 5,
   InitEv.cmd 0x01, InitEv.delay 5]

/-- The eight `LCD_command` calls of `LCD_init`, threading the `PP2`
accumulator from its prior value `pp0`.  Returns the final `PP2` and,
for each call in order, the command byte together with the bytes it
passed to `shift_out1`. -/
def LCD_init_sends (pp0 : Nat) : Nat × List (Nat × List Nat) :=
  let r1 := LCD_command 0x30 pp0
  let r2 := LCD_command 0x30 r1.1
  let r3 := LCD_command 0x30 r2.1
  let r4 := LCD_command 0x20 r3.1
  let r5 := LCD_command 0x28 r4.1
  let r6 := LCD_command 0x0C r5.1
  let r7 := LCD_command 0x06 r6.1
  let r8 := LCD_command 0x01 r7.1
  (r8.1,
   [(0x30, r1.2), (0x30, r2.2), (0x30, r3.2), (0x20, r4.2),
    (0x28, r5.2), (0x0C, r6.2), (0x06, r7.2), (0x01, r8.2)])

/-- Values of the global accumulator `PP2` reachable in the LCD
program: `PP2` is initialised to `0x00` and is mutated only by
`LCD_command` and `LCD_putc`. -/
inductive Reach : Nat → Prop where
  | start : Reach 0x00
  | cmd (c pp : Nat) : Reach pp → Reach (LCD_command c pp).1
  | putc (a pp : Nat) : Reach pp → Reach (LCD_putc a pp).1

/-- The PORTF value produced by the conditional SDATA statement of
loop iteration `j` of `shift_out1`: `0x04` when bit `j` of the byte is
set, `0x00` otherwise (the clock bit is still low at that point). -/
def dv (b j : Nat) : Nat := if b.testBit j then 0x04 else 0x00

/-- The high nibble of the remapped byte, as loaded by the first half
of `LCD_command`/`LCD_putc`. -/
def hiNib (b : Nat) : Nat := (remap b >>> 4) &&& 0x0F

/-- The low nibble of the remapped byte, as loaded by the second half
of `LCD_command`/`LCD_putc`. -/
def loNib (b : Nat) : Nat := remap b &&& 0x0F

end TM4C

namespace TM4C

/-- The loop test `byte & (1 << j)` is nonzero exactly when bit `j` of
`byte` is set. -/
theorem and_one_shift_ne_zero (b j : Nat) :
    (b &&& (1 <<< j) ≠ 0) ↔ b.testBit j = true := by
  rw [Nat.one_shiftLeft, Nat.and_two_pow]
  cases h : b.testBit j <;> simp [h]

/-- The write trace of `shift_out1`: latch low, then for each bit index
the three PORTF writes (clock low, data bit, data bit with clock high),
then latch high. -/
theorem shift_out1_trace (b : Nat) (s : Ports) :
    (shift_out1 b s).2 =
      Ev.e 0x00 ::
        ((List.range 8).flatMap fun j =>
          [Ev.f 0x00, Ev.f (dv b j), Ev.f (dv b j ||| 0x08)]) ++ [Ev.e 0x20] := by
  have h8 : List.range 8 = [0, 1, 2, 3, 4, 5, 6, 7] := by decide
  simp only [shift_out1, shiftLoop, shiftLoopIter, dv, h8, List.flatMap_cons, List.flatMap_nil,
    and_one_shift_ne_zero, Nat.zero_or, List.cons_append, List.nil_append, List.append_nil,
    List.append_assoc]

/-- The write trace of the 7-segment `shift_out1`: same shift loop, but
the latch port is PORTC with latch bit PC4. -/
theorem shift_out1_seg_trace (b : Nat) (s : PortsSeg) :
    (shift_out1_seg b s).2 =
      Ev.e 0x00 ::
        ((List.range 8).flatMap fun j =>
          [Ev.f 0x00, Ev.f (dv b j), Ev.f (dv b j ||| 0x08)]) ++ [Ev.e 0x10] := by
  have h8 : List.range 8 = [0, 1, 2, 3, 4, 5, 6, 7] := by decide
  simp only [shift_out1_seg, shiftLoop, shiftLoopIter, dv, h8, List.flatMap_cons, List.flatMap_nil,
    and_one_shift_ne_zero, Nat.zero_or, List.cons_append, List.nil_append, List.append_nil,
    List.append_assoc]

/-- The final register state of `shift_out1`: latch port holds `0x20`,
PORTF holds the last bit value with the clock high. -/
theorem shift_out1_state (b : Nat) (s : Ports) :
    (shift_out1 b s).1 = ⟨0x20, dv b 7 ||| 0x08⟩ := by
  have h8 : List.range 8 = [0, 1, 2, 3, 4, 5, 6, 7] := by decide
  simp only [shift_out1, shiftLoop, shiftLoopIter, dv, h8, and_one_shift_ne_zero, Nat.zero_or]

/-- The final register state of the 7-segment `shift_out1`. -/
theorem shift_out1_seg_state (b : Nat) (s : PortsSeg) :
    (shift_out1_seg b s).1 = ⟨0x10, dv b 7 ||| 0x08⟩ := by
  have h8 : List.range 8 = [0, 1, 2, 3, 4, 5, 6, 7] := by decide
  simp only [shift_out1_seg, shiftLoop, shiftLoopIter, dv, h8, and_one_shift_ne_zero,
    Nat.zero_or]

/-- The PORTF writes of one `shift_out1` call, cycle by cycle. -/
theorem fWrites_shift_out1 (b : Nat) (s : Ports) :
    fWrites (shift_out1 b s).2 =
      (List.range 8).flatMap fun j => [0x00, dv b j, dv b j ||| 0x08] := by
  rw [shift_out1_trace]
  have h8 : List.range 8 = [0, 1, 2, 3, 4, 5, 6, 7] := by decide
  simp only [fWrites, h8, List.flatMap_cons, List.flatMap_nil, List.cons_append,
    List.nil_append, List.append_nil, List.filterMap_cons, List.filterMap_nil,
    List.filterMap_append]

/-- Scanning the per-cycle PORTF writes of the shift loop yields one
clock rising edge per cycle, carrying exactly the corresponding data
bit, whatever the incoming clock level. -/
theorem risesFrom_cycles (b : Nat) (js : List Nat) (c : Bool) :
    risesFrom c (js.flatMap fun j => [0x00, dv b j, dv b j ||| 0x08]) =
      js.map fun j => b.testBit j := by
  induction js generalizing c with
  | nil => rfl
  | cons j js ih =>
    cases h : b.testBit j <;>
      (simp +decide [dv, h, risesFrom, clkOf, dataOf]
       rw [← List.flatMap_def]
       exact ih true)

/-- Running the latch checker over the shift-loop writes followed by a
latch-assert write succeeds exactly when the rising-edge count reaches
8 at the latch transition. -/
theorem latchCheck_cycles (b lb lv : Nat) (hlv : lv.testBit lb = true) :
    ∀ (js : List Nat) (c : Bool) (r : Nat),
      latchCheck lb
        ((js.flatMap fun j => [Ev.f 0x00, Ev.f (dv b j), Ev.f (dv b j ||| 0x08)]) ++
          [Ev.e lv]) false c r true = decide (r + js.length = 8) := by
  intro js
  induction js with
  | nil =>
    intro c r
    simp [latchCheck, hlv]
  | cons j js ih =>
    intro c r
    cases h : b.testBit j <;>
      (simp +decide [dv, h, latchCheck, clkOf]
       rw [← List.flatMap_def]
       exact (ih true (r + 1)).trans (decide_eq_decide.mpr (by omega)))

/-- Claim C1: `shift_out1` transmits the byte LSB-first: its PORTF
write trace consists of exactly 8 cycles, cycle `j` first deasserting
CLOCK (write `0x00`), then driving DATA to bit `j` of the byte, then
asserting CLOCK with DATA unchanged; consequently the DATA values
sampled at the 8 CLOCK rising edges are bits 0 through 7 of the byte,
for any prior port state and prior clock level. -/
theorem claim_C1_shift_lsb_first (b : Nat) (s : Ports) (c0 : Bool) (_hb : b < 256) :
    fWrites (shift_out1 b s).2 =
      ((List.range 8).flatMap fun j => [0x00, dv b j, dv b j ||| 0x08]) ∧
    risesFrom c0 (fWrites (shift_out1 b s).2) =
      (List.range 8).map fun j => b.testBit j := by
  refine ⟨fWrites_shift_out1 b s, ?_⟩
  rw [fWrites_shift_out1, risesFrom_cycles]

/-- Claim C1 witness: for byte `0b00000001` the DATA value at the first
CLOCK rising edge is HIGH and at the remaining seven it is LOW. -/
theorem claim_C1_witness :
    risesFrom false (fWrites (shift_out1 0x01 ⟨0x00, 0x00⟩).2) =
      [true, false, false, false, false, false, false, false] := by
  rw [(claim_C1_shift_lsb_first 0x01 ⟨0x00, 0x00⟩ false (by decide)).2]
  decide

/-- Claim C3 counterexample: a call to `shift_out1` does not only
toggle the DATA and CLOCK lines; already for byte `0x00` its trace
contains writes to the latch port. -/
theorem claim_C3_counterexample :
    ¬ eWrites (shift_out1 0x00 ⟨0x00, 0x00⟩).2 = [] := by
  decide

/-- Claim C3 (amended): `shift_out1` drives the LATCH line itself, in
the LCD program and in the multi-digit 7-segment program alike: every
call performs exactly two latch-port writes, deasserting the latch as
its first action and asserting it as its last, so latch framing is per
byte and is not left to the caller. -/
theorem claim_C3_latch_per_byte (b : Nat) (s : Ports) (t : PortsSeg) (_hb : b < 256) :
    (eWrites (shift_out1 b s).2 = [0x00, 0x20] ∧
      (shift_out1 b s).2.head? = some (Ev.e 0x00) ∧
      (shift_out1 b s).2.getLast? = some (Ev.e 0x20)) ∧
    (eWrites (shift_out1_seg b t).2 = [0x00, 0x10] ∧
      (shift_out1_seg b t).2.head? = some (Ev.e 0x00) ∧
      (shift_out1_seg b t).2.getLast? = some (Ev.e 0x10)) := by
  have h8 : List.range 8 = [0, 1, 2, 3, 4, 5, 6, 7] := by decide
  rw [shift_out1_trace, shift_out1_seg_trace]
  simp [eWrites, h8]

/-- Claim C3 witness: the latch-port write pattern at byte `0x5A`. -/
theorem claim_C3_witness :
    eWrites (shift_out1 0x5A ⟨0x0F, 0x0F⟩).2 = [0x00, 0x20] ∧
    eWrites (shift_out1_seg 0x5A ⟨0x0F, 0x0F⟩).2 = [0x00, 0x10] :=
  ⟨(claim_C3_latch_per_byte 0x5A ⟨0x0F, 0x0F⟩ ⟨0x0F, 0x0F⟩ (by decide)).1.1,
   (claim_C3_latch_per_byte 0x5A ⟨0x0F, 0x0F⟩ ⟨0x0F, 0x0F⟩ (by decide)).2.1⟩

/-- Claim C7: in every execution of `shift_out1` (LCD program, latch
bit PE5) and of the 7-segment `shift_out1` (latch bit PC4), the latch
is deasserted before any clock pulse, no clock rising edge occurs while
the latch is asserted, and the latch transitions from deasserted to
asserted only after exactly 8 clock rising edges since it was driven
low — so a partially shifted byte is never latched.  This holds for
any prior port state and any assumed initial latch/clock levels. -/
theorem claim_C7_latch_discipline (b : Nat) (s : Ports) (t : PortsSeg)
    (lc cc : Bool) (_hb : b < 256) :
    latchCheck 5 (shift_out1 b s).2 lc cc 0 false = true ∧
    latchCheck 4 (shift_out1_seg b t).2 lc cc 0 false = true := by
  rw [shift_out1_trace, shift_out1_seg_trace]
  constructor
  · show latchCheck 5 (Ev.e 0x00 :: _) lc cc 0 false = true
    rw [latchCheck]
    simp only [show Nat.testBit 0x00 5 = false by decide, Bool.false_and, if_false,
      Bool.false_eq_true, ite_false]
    exact (latchCheck_cycles b 5 0x20 (by decide) (List.range 8) cc 0).trans (by decide)
  · show latchCheck 4 (Ev.e 0x00 :: _) lc cc 0 false = true
    rw [latchCheck]
    simp only [show Nat.testBit 0x00 4 = false by decide, Bool.false_and, if_false,
      Bool.false_eq_true, ite_false]
    exact (latchCheck_cycles b 4 0x10 (by decide) (List.range 8) cc 0).trans (by decide)

/-- Claim C7 witness: the latch discipline checker succeeds on the
concrete byte `0xAB` from a dirty prior port state. -/
theorem claim_C7_witness :
    latchCheck 5 (shift_out1 0xAB ⟨0xFF, 0xFF⟩).2 true true 0 false = true :=
  (claim_C7_latch_discipline 0xAB ⟨0xFF, 0xFF⟩ ⟨0xFF, 0xFF⟩ true true (by decide)).1

/-- Claim C10: `shift_out1` does not preserve unrelated GPIO bits: for
every byte and every prior port state it writes `0x00` to the full data
registers of both ports during the call, and afterwards the latch port
holds exactly `0x20` (only the latch bit may be set) while the
data/clock port has all bits outside SDATA/SCLK (`0x0C`) equal to 0.
The same holds for the 7-segment variant with latch value `0x10`. -/
theorem claim_C10_port_clobber (b : Nat) (s : Ports) (t : PortsSeg) (_hb : b < 256) :
    ((shift_out1 b s).1.portE = 0x20 ∧
      (shift_out1 b s).1.portF &&& 0xF3 = 0 ∧
      Ev.e 0x00 ∈ (shift_out1 b s).2 ∧
      Ev.f 0x00 ∈ (shift_out1 b s).2) ∧
    ((shift_out1_seg b t).1.portC = 0x10 ∧
      (shift_out1_seg b t).1.portF &&& 0xF3 = 0 ∧
      Ev.e 0x00 ∈ (shift_out1_seg b t).2 ∧
      Ev.f 0x00 ∈ (shift_out1_seg b t).2) := by
  have h8 : List.range 8 = [0, 1, 2, 3, 4, 5, 6, 7] := by decide
  have hf : (dv b 7 ||| 0x08) &&& 0xF3 = 0 := by
    unfold dv
    cases b.testBit 7 <;> simp +decide
  refine ⟨⟨?_, ?_, ?_, ?_⟩, ⟨?_, ?_, ?_, ?_⟩⟩
  · rw [shift_out1_state]
  · rw [shift_out1_state]; exact hf
  · rw [shift_out1_trace]; exact List.mem_cons_self _ _
  · rw [shift_out1_trace]; simp [h8]
  · rw [shift_out1_seg_state]
  · rw [shift_out1_seg_state]; exact hf
  · rw [shift_out1_seg_trace]; exact List.mem_cons_self _ _
  · rw [shift_out1_seg_trace]; simp [h8]

/-- Claim C10 witness: after shifting byte `0xFF` from a prior state
with all port bits set, the non-latch bits of the latch port and the
non-SDATA/SCLK bits of PORTF are all zero. -/
theorem claim_C10_witness :
    (shift_out1 0xFF ⟨0xFF, 0xFF⟩).1.portE = 0x20 ∧
    (shift_out1 0xFF ⟨0xFF, 0xFF⟩).1.portF &&& 0xF3 = 0 :=
  ⟨(claim_C10_port_clobber 0xFF ⟨0xFF, 0xFF⟩ ⟨0xFF, 0xFF⟩ (by decide)).1.1,
   (claim_C10_port_clobber 0xFF ⟨0xFF, 0xFF⟩ ⟨0xFF, 0xFF⟩ (by decide)).1.2.1⟩

/-- Claim C2 counterexample: the four spot values quoted by the spec do
not all hold of the remap in the source; `remap 0x10` is `0x80`, not
`0x02`. -/
theorem claim_C2_counterexample :
    ¬ (remap 0x00 = 0x00 ∧ remap 0xFF = 0xFF ∧ remap 0x01 = 0x08 ∧
       remap 0x10 = 0x02) := by
  decide

/-- Claim C2 (amended): the remap of the source satisfies
`remap 0x00 = 0x00`, `remap 0xFF = 0xFF`, `remap 0x01 = 0x08`, and
`remap 0x10 = 0x80` (bit 4 moves to bit 7, not to bit 1). -/
theorem claim_C2_remap_spot_values :
    remap 0x00 = 0x00 ∧ remap 0xFF = 0xFF ∧ remap 0x01 = 0x08 ∧
    remap 0x10 = 0x80 := by
  decide

set_option maxRecDepth 4096 in
/-- Claim C8: the wiring bit-remap is an involution on 8-bit values:
applying it twice returns the original byte. -/
theorem claim_C8_remap_involution :
    ∀ b : Nat, b < 256 → remap (remap b) = b := by
  decide

/-- Claim C8 witness: the involution at the concrete byte 0xA7. -/
theorem claim_C8_witness : remap (remap 0xA7) = 0xA7 :=
  claim_C8_remap_involution 0xA7 (by decide)

/-- Reduction modulo 256 is the low-byte mask `x &&& 0xFF`. -/
theorem mod256_eq_and (x : Nat) : x % 256 = x &&& 0xFF := by
  apply Nat.eq_of_testBit_eq
  intro i
  rw [show (256 : Nat) = 2 ^ 8 from rfl, Nat.testBit_mod_two_pow,
      show (0xFF : Nat) = 2 ^ 8 - 1 from rfl, Nat.testBit_and, Nat.testBit_two_pow_sub_one]
  cases x.testBit i <;> simp [Bool.and_comm]

/-- Bytes below 256 are equal as soon as their low 8 bits agree. -/
theorem eq_of_testBit_lt8 {x y : Nat} (hx : x < 256) (hy : y < 256)
    (h : ∀ i, i < 8 → x.testBit i = y.testBit i) : x = y := by
  apply Nat.eq_of_testBit_eq
  intro i
  rcases Nat.lt_or_ge i 8 with hi | hi
  · exact h i hi
  · have h2 : (256 : Nat) ≤ 2 ^ i := by
      calc (256 : Nat) = 2 ^ 8 := rfl
      _ ≤ 2 ^ i := Nat.pow_le_pow_right (by norm_num) hi
    rw [Nat.testBit_lt_two_pow (lt_of_lt_of_le hx h2),
        Nat.testBit_lt_two_pow (lt_of_lt_of_le hy h2)]

/-- Masking with 0x40 yields zero exactly when bit 6 (the RW line) is
clear. -/
theorem and_0x40_eq_zero_iff (x : Nat) : x &&& 0x40 = 0 ↔ x.testBit 6 = false := by
  rw [show (0x40 : Nat) = 2 ^ 6 from rfl, Nat.and_two_pow]
  cases h : x.testBit 6 <;> simp [h]

set_option maxHeartbeats 1000000 in
/-- Claim C4: `LCD_command` and `LCD_putc` each pass exactly four bytes
to `shift_out1` per input byte — two per nibble — with the high nibble
of the remapped byte carried by the first two and the low nibble by the
last two, and with the EN bit (0x20) set in the first byte of each
nibble pair and clear in the second, for every prior accumulator
value. -/
theorem claim_C4_nibble_framing (c a pp : Nat) (_hc : c < 256) (_ha : a < 256) :
    (LCD_command c pp).2.map (fun x => (x &&& 0x0F, x &&& 0x20)) =
      [(hiNib c, 0x20), (hiNib c, 0), (loNib c, 0x20), (loNib c, 0)] ∧
    (LCD_putc a pp).2.map (fun x => (x &&& 0x0F, x &&& 0x20)) =
      [(hiNib a, 0x20), (hiNib a, 0), (loNib a, 0x20), (loNib a, 0)] := by
  constructor <;>
    (simp only [LCD_command, LCD_putc, List.map_cons, List.map_nil, List.cons.injEq,
       and_true, Prod.mk.injEq]
     refine ⟨⟨?_, ?_⟩, ⟨?_, ?_⟩, ⟨?_, ?_⟩, ?_, ?_⟩ <;>
       (apply eq_of_testBit_lt8
          (by first
            | exact Nat.lt_of_le_of_lt Nat.and_le_right (by norm_num)
            | norm_num)
          (by first
            | exact Nat.lt_of_le_of_lt Nat.and_le_right (by norm_num)
            | norm_num)
        intro i hi
        interval_cases i <;>
          (simp +decide [remap, andNotC, mod256_eq_and, hiNib, loNib, Nat.testBit_or,
             Nat.testBit_and, Nat.testBit_xor, Nat.testBit_shiftLeft, Nat.testBit_shiftRight] <;>
           simp +decide [Nat.testBit_to_div_mod])))

/-- Claim C4 witness: the nibble/EN framing at command byte `0x01`,
data byte `0x41`, prior accumulator `0x00`. -/
theorem claim_C4_witness :
    (LCD_command 0x01 0x00).2.map (fun x => (x &&& 0x0F, x &&& 0x20)) =
      [(hiNib 0x01, 0x20), (hiNib 0x01, 0), (loNib 0x01, 0x20), (loNib 0x01, 0)] :=
  (claim_C4_nibble_framing 0x01 0x41 0x00 (by decide) (by decide)).1

/-- Claim C5 counterexample: the three `0x30` sends of `LCD_init` are
not raw single-nibble sends: already the first of them passes four
bytes (two full EN-framed nibbles) to `shift_out1`, not two. -/
theorem claim_C5_counterexample :
    ¬ ∀ p ∈ (LCD_init_sends 0x00).2.take 3, p.2.length = 2 := by
  decide

/-- Claim C5 (amended): `LCD_init` performs exactly three `0x30` sends
before the switch-to-4-bit command `0x20`, each followed by a settle
delay (`delayMs 5`, after the initial `delayMs 20`), but each of the
three goes through the full 2-nibble `LCD_command` path, passing four
bytes to `shift_out1`, rather than being sent directly as a raw
nibble. -/
theorem claim_C5_init_three_sends :
    LCD_init_events.takeWhile (fun ev => ev != InitEv.cmd 0x20) =
      [InitEv.delay 20, InitEv.cmd 0x30, InitEv.delay 5, InitEv.cmd 0x30,
       InitEv.delay 5, InitEv.cmd 0x30, InitEv.delay 5] ∧
    (LCD_init_sends 0x00).2.map Prod.fst =
      [0x30, 0x30, 0x30, 0x20, 0x28, 0x0C, 0x06, 0x01] ∧
    (∀ p ∈ (LCD_init_sends 0x00).2.take 3, p.1 = 0x30 ∧ p.2.length = 4) := by
  refine ⟨by decide, by decide, by decide⟩

/-- Claim C6: evaluation at the failing input.  With prior accumulator
`PP2 = 0x40` (RW bit set) and command `0x00`, `LCD_command` shifts out
`[0x60, 0x40, 0x60, 0x40]`: the statement `PP2 &= ~(3 << 7)` clears
only bit 7 on an 8-bit accumulator, so the RW bit 6 stays set in every
emitted byte, contradicting the claimed (and commented) `RW = 0`. -/
theorem claim_C6_rw_bit_survives :
    (LCD_command 0x00 0x40).2 = [0x60, 0x40, 0x60, 0x40] ∧
    ¬ ∀ b ∈ (LCD_command 0x00 0x40).2, b &&& 0x40 = 0 := by
  refine ⟨by decide, by decide⟩

/-- Bit 6 (RW) of the accumulator and of every byte emitted by
`LCD_command` is clear whenever it was clear before the call:
`LCD_command` never sets it (though, because of the `~(3 << 7)` slip,
it does not clear it either). -/
theorem LCD_command_bit6 (c pp : Nat) (h : pp.testBit 6 = false) :
    (LCD_command c pp).1.testBit 6 = false ∧
    ∀ b ∈ (LCD_command c pp).2, b.testBit 6 = false := by
  simp only [LCD_command, List.mem_cons, List.not_mem_nil, or_false, forall_eq_or_imp,
    forall_eq]
  refine ⟨?_, ?_, ?_, ?_, ?_⟩ <;>
    simp +decide [remap, andNotC, mod256_eq_and, Nat.testBit_or, Nat.testBit_and,
      Nat.testBit_xor, Nat.testBit_shiftLeft, Nat.testBit_shiftRight, h]

/-- Bit 6 (RW) of the accumulator and of every byte emitted by
`LCD_putc` is clear after the call regardless of the prior state:
`LCD_putc` explicitly executes `PP2 &= ~0x40` in both nibble halves. -/
theorem LCD_putc_bit6 (a pp : Nat) :
    (LCD_putc a pp).1.testBit 6 = false ∧
    ∀ b ∈ (LCD_putc a pp).2, b.testBit 6 = false := by
  simp only [LCD_putc, List.mem_cons, List.not_mem_nil, or_false, forall_eq_or_imp,
    forall_eq]
  refine ⟨?_, ?_, ?_, ?_, ?_⟩ <;>
    simp +decide [remap, andNotC, mod256_eq_and, Nat.testBit_or, Nat.testBit_and,
      Nat.testBit_xor, Nat.testBit_shiftLeft, Nat.testBit_shiftRight]

/-- Claim C9: the RW bit (bit 6, mask 0x40) of the accumulator `PP2` is
0 in every reachable state of the LCD program — it starts at 0,
`LCD_putc` clears it and `LCD_command` never sets it — and hence every
byte shifted out by `LCD_command` or `LCD_putc` from a reachable state
has RW = 0. -/
theorem claim_C9_rw_always_zero :
    (∀ pp, Reach pp → pp &&& 0x40 = 0) ∧
    (∀ pp c, Reach pp → ∀ b ∈ (LCD_command c pp).2, b &&& 0x40 = 0) ∧
    (∀ pp a, Reach pp → ∀ b ∈ (LCD_putc a pp).2, b &&& 0x40 = 0) := by
  have hr : ∀ pp, Reach pp → pp.testBit 6 = false := by
    intro pp h
    induction h with
    | start => decide
    | cmd c pp h ih => exact (LCD_command_bit6 c pp ih).1
    | putc a pp h ih => exact (LCD_putc_bit6 a pp).1
  refine ⟨fun pp h => (and_0x40_eq_zero_iff pp).mpr (hr pp h),
    fun pp c h b hb =>
      (and_0x40_eq_zero_iff b).mpr ((LCD_command_bit6 c pp (hr pp h)).2 b hb),
    fun pp a h b hb =>
      (and_0x40_eq_zero_iff b).mpr ((LCD_putc_bit6 a pp).2 b hb)⟩

/-- Claim C9 witness: at the initial accumulator value the invariant
and the emitted-byte property hold concretely. -/
theorem claim_C9_witness :
    ((0x00 : Nat) &&& 0x40 = 0) ∧ ∀ b ∈ (LCD_command 0x30 0x00).2, b &&& 0x40 = 0 :=
  ⟨claim_C9_rw_always_zero.1 0x00 Reach.start,
   claim_C9_rw_always_zero.2.1 0x00 0x30 Reach.start⟩

end TM4C
